import Mathlib

/-
Verification of the lightseq GPT inference runtime (csrc/models/gpt.cc,
csrc/ops_new/strided_batch_gemm.cpp) via a shallow embedding: the decode
loop of Gpt::Infer, the per-layer before_forward parameter schedule, the
slot-indexed accessor functions, the build-phase guard of
StridedBatchGemmOp, and the Variable buffer swap.
-/

namespace lightseq

/-- Element data types, mirroring the DataType enum used by
Gpt::get_input_dtype / Gpt::get_output_dtype. -/
inductive DataType where
  | kInt32
  | kFloat16
  | kFloat32
deriving DecidableEq, Repr

/-- Abstract device tensor buffer: only its identity matters for the
buffer-swap and decode-loop claims (contents live on the device and are
written solely by kernels, which are out of scope by contract). -/
structure Tensor where
  tid : Nat
deriving DecidableEq, Repr

/-- A graph Variable: name, element type, and a reference to the tensor
buffer currently backing it (gpt.cc wires _inp_tokens / _out_tokens as such
nodes). -/
structure Variable where
  name : String
  dtype : DataType
  tensor : Tensor
deriving DecidableEq, Repr

/-- Modelled from the spec: `Variable::swap_tensor` is called at
gpt.cc:156 but its body is not under src/. Spec §3 and §4.2: swapping two
Variables exchanges their buffer references, not their data; name, element
type and logical shape stay with each Variable. -/
def Variable.swap_tensor (a b : Variable) : Variable × Variable :=
  ({ a with tensor := b.tensor }, { b with tensor := a.tensor })

/-- Matrix transpose flags, mirroring MATRIX_OP in the C++ source. -/
inductive MATRIX_OP where
  | Transpose
  | NonTranspose
deriving DecidableEq, Repr

/-- Which Variable buffer feeds an operand of a gemm kernel launch:
parent(i)->value(), child(i)->value(), child(i)->grad(), parent(i)->grad(). -/
inductive BufRef where
  | parentVal (i : Nat)
  | childVal (i : Nat)
  | childGrad (i : Nat)
  | parentGrad (i : Nat)
deriving DecidableEq, Repr

/-- One recorded cublas_strided_batched_gemm launch, with the argument
list of the call site in strided_batch_gemm.cpp. -/
structure GemmCall where
  m : Int
  n : Int
  k : Int
  alpha : Rat
  beta : Rat
  buf_a : BufRef
  buf_b : BufRef
  buf_out : BufRef
  op_a : MATRIX_OP
  op_b : MATRIX_OP
  stride_a : Int
  stride_b : Int
  stride_c : Int
  batch_heads : Int
  algo : Int
deriving DecidableEq, Repr

/-- The scalar state of StridedBatchGemmOp (strided_batch_gemm.h):
per-step shape parameters and the construction-time constants. -/
structure StridedBatchGemmOp where
  m : Int
  n : Int
  k : Int
  max_ele_num : Nat
  batch_heads : Int
  alpha : Rat
  beta : Rat
  gemm_algos : Int × Int × Int
  max_seq : Int
  op_A : MATRIX_OP
  op_B : MATRIX_OP
  op_AA : MATRIX_OP
  op_BB : MATRIX_OP
deriving DecidableEq, Repr

/-- StridedBatchGemmOp::forward (strided_batch_gemm.cpp lines 17-40):
reads the operand pointers, returns immediately when the Context is not
built, otherwise computes the strides and issues one gemm launch. The
returned pair is (operator state after the call, kernel launches issued);
Variable buffers are mutated only by launched kernels. -/
def StridedBatchGemmOp.forward (is_built : Bool) (op : StridedBatchGemmOp) :
    StridedBatchGemmOp × List GemmCall :=
  if !is_built then (op, [])
  else
    let stride_a0 : Int := op.m * op.k
    let stride_b : Int := op.n * op.k
    let stride_c : Int := op.m * op.n
    let stride_a : Int :=
      if op.max_seq > 0 then
        op.max_seq * (if op.op_AA = MATRIX_OP.NonTranspose then op.m else op.k)
      else stride_a0
    (op, [{ m := op.m, n := op.n, k := op.k, alpha := op.alpha, beta := op.beta,
            buf_a := BufRef.parentVal 0, buf_b := BufRef.parentVal 1,
            buf_out := BufRef.childVal 0,
            op_a := op.op_A, op_b := op.op_B,
            stride_a := stride_a, stride_b := stride_b, stride_c := stride_c,
            batch_heads := op.batch_heads, algo := op.gemm_algos.1 }])

/-- StridedBatchGemmOp::backward (strided_batch_gemm.cpp lines 43-89):
computes mb/kb and strides, returns immediately when the Context is not
built, otherwise issues the d_A and d_B gemm launches. -/
def StridedBatchGemmOp.backward (is_built : Bool) (op : StridedBatchGemmOp) :
    StridedBatchGemmOp × List GemmCall :=
  let mb : Int := if op.op_AA = MATRIX_OP.Transpose then op.k else op.m
  let kb : Int := if op.op_AA = MATRIX_OP.Transpose then op.m else op.k
  let stride_a : Int := mb * op.n
  let stride_b : Int := op.n * kb
  let stride_c : Int := op.m * op.k
  if !is_built then (op, [])
  else
    let op_b : MATRIX_OP :=
      if op.op_B = MATRIX_OP.Transpose then MATRIX_OP.NonTranspose
      else MATRIX_OP.Transpose
    let callA : GemmCall :=
      { m := mb, n := kb, k := op.n, alpha := op.alpha, beta := op.beta,
        buf_a := if op.op_A = MATRIX_OP.Transpose then BufRef.parentVal 1
                 else BufRef.childGrad 0,
        buf_b := if op.op_A = MATRIX_OP.Transpose then BufRef.childGrad 0
                 else BufRef.parentVal 1,
        buf_out := BufRef.parentGrad 0,
        op_a := MATRIX_OP.NonTranspose, op_b := op_b,
        stride_a := stride_a, stride_b := stride_b, stride_c := stride_c,
        batch_heads := op.batch_heads, algo := op.gemm_algos.2.1 }
    let op_a : MATRIX_OP :=
      if op.op_A = MATRIX_OP.Transpose then MATRIX_OP.NonTranspose
      else MATRIX_OP.Transpose
    let callB : GemmCall :=
      { m := op.k, n := op.n, k := op.m, alpha := op.alpha, beta := op.beta,
        buf_a := BufRef.parentVal 0, buf_b := BufRef.childGrad 0,
        buf_out := BufRef.parentGrad 1,
        op_a := op_a, op_b := MATRIX_OP.NonTranspose,
        stride_a := op.m * op.k, stride_b := op.m * op.n,
        stride_c := op.n * op.k,
        batch_heads := op.batch_heads, algo := op.gemm_algos.2.2 }
    (op, [callA, callB])

/-- The configuration scalars of Gpt that the decode loop and the shape
accessors read (gpt.cc: _max_batch_size and the tw_ weight-config fields). -/
structure GptConfig where
  max_batch_size : Nat
  max_step : Nat
  hidden_size : Nat
  beam_size : Nat
  n_enc_layer : Nat
deriving DecidableEq, Repr

/-- Identity of a layer of the Gpt network, in the wiring order of
gpt.cc: embedding launch, the transformer (GptLayer) stack, final layer
norm, vocab projection, generator. -/
inductive LayerId where
  | launch_gpt_emb
  | gpt_layer (idx : Nat)
  | lyr_norm
  | linear
  | generator
deriving DecidableEq, Repr

/-- One before_forward call issued to a layer: the layer, its first two
scalar arguments, and the third argument when that layer's overload takes
one (LyrNormalizeLayer and LinearLayer take only two). -/
structure LayerCall where
  layer : LayerId
  arg1 : Nat
  arg2 : Nat
  arg3 : Option Nat
deriving DecidableEq, Repr

/-- Gpt::before_forward (gpt.cc lines 94-114): the per-layer scalar
parameter schedule, as the ordered list of calls it issues. At steps = 0
every layer sees the full prompt; at steps >= 1 the embedding and
generator layers get offset seq_len + steps - 1, the transformer layers
get seq_len + steps, and the norm/linear layers take no offset. The
generator receives batch_size, the others batch_size * beam_size. -/
def Gpt.before_forward (cfg : GptConfig) (batch_size seq_len steps : Nat) :
    List LayerCall :=
  if steps = 0 then
    [⟨LayerId.launch_gpt_emb, batch_size * cfg.beam_size, seq_len, some 0⟩]
    ++ (List.range cfg.n_enc_layer).map
        (fun idx => ⟨LayerId.gpt_layer idx, batch_size * cfg.beam_size, seq_len, some 0⟩)
    ++ [⟨LayerId.lyr_norm, batch_size * cfg.beam_size, seq_len, none⟩,
        ⟨LayerId.linear, batch_size * cfg.beam_size, seq_len, none⟩,
        ⟨LayerId.generator, batch_size, seq_len, some 0⟩]
  else
    [⟨LayerId.launch_gpt_emb, batch_size * cfg.beam_size, 1, some (seq_len + steps - 1)⟩]
    ++ (List.range cfg.n_enc_layer).map
        (fun idx => ⟨LayerId.gpt_layer idx, batch_size * cfg.beam_size, 1, some (seq_len + steps)⟩)
    ++ [⟨LayerId.lyr_norm, batch_size * cfg.beam_size, 1, none⟩,
        ⟨LayerId.linear, batch_size * cfg.beam_size, 1, none⟩,
        ⟨LayerId.generator, batch_size, 1, some (seq_len + steps - 1)⟩]

/-- Observable events of one Gpt::Infer call, in program order:
a before_forward sweep (with its per-layer calls), a full layer-stack
forward pass, the generator stop-flag check, a Variable::swap_tensor of
(_inp_tokens, _out_tokens), the final Context synchronize, and the
set_output_shape publication. Each event carries the value of the step
counter when it happened. -/
inductive Event where
  | beforeForwardEv (steps : Nat) (calls : List LayerCall)
  | forwardEv (steps : Nat)
  | stopCheckEv (steps : Nat) (result : Bool)
  | swapEv (steps : Nat)
  | syncEv
  | publishEv (slot : Nat) (shape : List Nat)
deriving DecidableEq, Repr

/-- Mutable state of the Gpt::Infer while loop: the step counter, the two
token Variables exchanged by the swap, and the event trace so far. -/
structure InferState where
  steps : Nat
  inp_tokens : Variable
  out_tokens : Variable
  trace : List Event
deriving DecidableEq, Repr

/-- One iteration of the while loop of Gpt::Infer (gpt.cc lines 139-161):
before_forward, forward every layer, break if the generator signals stop,
swap the token Variables, break when steps == 1, else increment steps.
Sum.inr means break with the given state, Sum.inl means continue.
The generator stop flag is abstracted as a function of the step counter,
covering every possible generator behaviour. -/
def Gpt.inferIter (cfg : GptConfig) (is_stop : Nat → Bool)
    (batch_size seq_len : Nat) (s : InferState) : InferState ⊕ InferState :=
  let s1 : InferState :=
    { s with trace := s.trace
        ++ [Event.beforeForwardEv s.steps
              (Gpt.before_forward cfg batch_size seq_len s.steps),
            Event.forwardEv s.steps] }
  if is_stop s1.steps then
    Sum.inr { s1 with trace := s1.trace ++ [Event.stopCheckEv s1.steps true] }
  else
    let s2 : InferState :=
      { s1 with trace := s1.trace ++ [Event.stopCheckEv s1.steps false] }
    let swapped := Variable.swap_tensor s2.inp_tokens s2.out_tokens
    let s3 : InferState :=
      { s2 with inp_tokens := swapped.1, out_tokens := swapped.2,
                trace := s2.trace ++ [Event.swapEv s2.steps] }
    if s3.steps = 1 then Sum.inr s3
    else Sum.inl { s3 with steps := s3.steps + 1 }

/-- The while(true) loop of Gpt::Infer, with explicit fuel so that
termination is a theorem rather than an assumption: none means the fuel
ran out before the loop broke. -/
def Gpt.inferLoop (cfg : GptConfig) (is_stop : Nat → Bool)
    (batch_size seq_len : Nat) : Nat → InferState → Option InferState
  | 0, _ => none
  | Nat.succ fuel, s =>
    match Gpt.inferIter cfg is_stop batch_size seq_len s with
    | Sum.inr s1 => some s1
    | Sum.inl s1 => Gpt.inferLoop cfg is_stop batch_size seq_len fuel s1

/-- Result of one Gpt::Infer call: final step counter, the shape passed to
set_output_shape(0, {batch_size, seq_len + steps}), the final token
Variables, and the full event trace. -/
structure InferResult where
  steps : Nat
  output_shape : List Nat
  inp_tokens : Variable
  out_tokens : Variable
  trace : List Event
deriving DecidableEq, Repr

/-- Gpt::Infer (gpt.cc lines 116-165): reads batch_size and seq_len from
the bound input shape, runs the decode loop from steps = 0, then issues
Context::synchronize and publishes output shape {batch_size,
seq_len + steps} for slot 0. -/
def Gpt.Infer (cfg : GptConfig) (is_stop : Nat → Bool)
    (batch_size seq_len fuel : Nat) (inp out : Variable) :
    Option InferResult :=
  match Gpt.inferLoop cfg is_stop batch_size seq_len fuel ⟨0, inp, out, []⟩ with
  | none => none
  | some s =>
      some { steps := s.steps,
             output_shape := [batch_size, seq_len + s.steps],
             inp_tokens := s.inp_tokens,
             out_tokens := s.out_tokens,
             trace := s.trace
               ++ [Event.syncEv,
                   Event.publishEv 0 [batch_size, seq_len + s.steps]] }

/-- Number of full layer-stack forward passes recorded in a trace. -/
def countForwards : List Event → Nat
  | [] => 0
  | Event.forwardEv _ :: rest => countForwards rest + 1
  | _ :: rest => countForwards rest

/-- Number of layer-stack forward passes recorded strictly after the
first stop check that returned true (0 when no check returned true). -/
def forwardsAfterStop : List Event → Nat
  | [] => 0
  | Event.stopCheckEv _ true :: rest => countForwards rest
  | _ :: rest => forwardsAfterStop rest

/-- Whether an Except result is a success. -/
def exceptOk {α : Type} : Except String α → Bool
  | Except.ok _ => true
  | Except.error _ => false

/-- Gpt::set_input_ptr (gpt.cc lines 167-178): slot 0 stores the pointer,
any other index throws "invalid input index". -/
def Gpt.set_input_ptr (index : Int) (input_ptr : Nat) : Except String Nat :=
  if index = 0 then Except.ok input_ptr
  else Except.error "invalid input index"

/-- Gpt::set_output_ptr (gpt.cc lines 180-191): slot 0 stores the pointer,
any other index throws "invalid output index". -/
def Gpt.set_output_ptr (index : Int) (output_ptr : Nat) : Except String Nat :=
  if index = 0 then Except.ok output_ptr
  else Except.error "invalid output index"

/-- Gpt::get_output_ptr (gpt.cc lines 193-202): slot 0 returns the stored
output pointer, any other index throws "invalid output index". -/
def Gpt.get_output_ptr (gpt_out_ptr : Nat) (index : Int) : Except String Nat :=
  if index = 0 then Except.ok gpt_out_ptr
  else Except.error "invalid output index"

/-- Gpt::get_input_max_shape (gpt.cc lines 204-213): slot 0 returns
{_max_batch_size, _max_step}, any other index throws. -/
def Gpt.get_input_max_shape (cfg : GptConfig) (index : Int) :
    Except String (List Nat) :=
  if index = 0 then Except.ok [cfg.max_batch_size, cfg.max_step]
  else Except.error "invalid input index"

/-- Gpt::get_output_max_shape (gpt.cc lines 214-223): slot 0 returns
{_max_batch_size, _max_step, _hidden_size}, any other index throws. -/
def Gpt.get_output_max_shape (cfg : GptConfig) (index : Int) :
    Except String (List Nat) :=
  if index = 0 then Except.ok [cfg.max_batch_size, cfg.max_step, cfg.hidden_size]
  else Except.error "invalid output index"

/-- Gpt::get_input_dtype (gpt.cc lines 225-235): slot 0 is kInt32, any
other index throws. -/
def Gpt.get_input_dtype (index : Int) : Except String DataType :=
  if index = 0 then Except.ok DataType.kInt32
  else Except.error "invalid input index"

/-- Gpt::get_output_dtype (gpt.cc lines 237-252): slot 0 is kFloat16 in
FP16_MODE and kFloat32 otherwise, any other index throws. -/
def Gpt.get_output_dtype (fp16_mode : Bool) (index : Int) :
    Except String DataType :=
  if index = 0 then
    Except.ok (if fp16_mode then DataType.kFloat16 else DataType.kFloat32)
  else Except.error "invalid output index"

/-- Closed form of Gpt::Infer when the generator signals stop at the
prefill check (step 0). -/
lemma infer_eval_stop0 (cfg : GptConfig) (g : Nat → Bool) (b l fuel : Nat)
    (inp out : Variable) (hf : 1 ≤ fuel) (h0 : g 0 = true) :
    Gpt.Infer cfg g b l fuel inp out =
      some { steps := 0, output_shape := [b, l],
             inp_tokens := inp, out_tokens := out,
             trace := [Event.beforeForwardEv 0 (Gpt.before_forward cfg b l 0),
                       Event.forwardEv 0, Event.stopCheckEv 0 true,
                       Event.syncEv, Event.publishEv 0 [b, l]] } := by
  cases fuel with
  | zero => omega
  | succ n => simp [Gpt.Infer, Gpt.inferLoop, Gpt.inferIter, h0]

/-- Closed form of Gpt::Infer when the generator does not stop at step 0
but stops at step 1: one decode transition, one buffer swap. -/
lemma infer_eval_stop1 (cfg : GptConfig) (g : Nat → Bool) (b l fuel : Nat)
    (inp out : Variable) (hf : 2 ≤ fuel) (h0 : g 0 = false) (h1 : g 1 = true) :
    Gpt.Infer cfg g b l fuel inp out =
      some { steps := 1, output_shape := [b, l + 1],
             inp_tokens := { inp with tensor := out.tensor },
             out_tokens := { out with tensor := inp.tensor },
             trace := [Event.beforeForwardEv 0 (Gpt.before_forward cfg b l 0),
                       Event.forwardEv 0, Event.stopCheckEv 0 false,
                       Event.swapEv 0,
                       Event.beforeForwardEv 1 (Gpt.before_forward cfg b l 1),
                       Event.forwardEv 1, Event.stopCheckEv 1 true,
                       Event.syncEv, Event.publishEv 0 [b, l + 1]] } := by
  cases fuel with
  | zero => omega
  | succ m =>
    cases m with
    | zero => omega
    | succ n =>
      simp [Gpt.Infer, Gpt.inferLoop, Gpt.inferIter, Variable.swap_tensor, h0, h1]

/-- Closed form of Gpt::Infer when the generator never stops at the two
checked steps: the hard break at steps == 1 exits the loop after the
second forward pass, and the two swaps restore the original buffer
assignment. -/
lemma infer_eval_nostop (cfg : GptConfig) (g : Nat → Bool) (b l fuel : Nat)
    (inp out : Variable) (hf : 2 ≤ fuel) (h0 : g 0 = false) (h1 : g 1 = false) :
    Gpt.Infer cfg g b l fuel inp out =
      some { steps := 1, output_shape := [b, l + 1],
             inp_tokens := inp, out_tokens := out,
             trace := [Event.beforeForwardEv 0 (Gpt.before_forward cfg b l 0),
                       Event.forwardEv 0, Event.stopCheckEv 0 false,
                       Event.swapEv 0,
                       Event.beforeForwardEv 1 (Gpt.before_forward cfg b l 1),
                       Event.forwardEv 1, Event.stopCheckEv 1 false,
                       Event.swapEv 1,
                       Event.syncEv, Event.publishEv 0 [b, l + 1]] } := by
  cases fuel with
  | zero => omega
  | succ m =>
    cases m with
    | zero => omega
    | succ n =>
      simp [Gpt.Infer, Gpt.inferLoop, Gpt.inferIter, Variable.swap_tensor, h0, h1]

/-- Shared characterization of every Gpt::Infer run with enough fuel:
it terminates, does at most two layer-stack forwards, the step counter
stays at most 1, no forward follows a positive stop check, and the run
ends with synchronize followed by the shape publication. -/
lemma infer_characterization (cfg : GptConfig) (g : Nat → Bool)
    (b l fuel : Nat) (inp out : Variable) (hf : 2 ≤ fuel) :
    ∃ r, Gpt.Infer cfg g b l fuel inp out = some r ∧
      countForwards r.trace ≤ 2 ∧ r.steps ≤ 1 ∧
      forwardsAfterStop r.trace = 0 ∧
      (∃ pre, r.trace = pre ++ [Event.syncEv, Event.publishEv 0 [b, l + r.steps]]) ∧
      r.output_shape = [b, l + r.steps] := by
  cases h0 : g 0 with
  | true =>
    refine ⟨_, infer_eval_stop0 cfg g b l fuel inp out (by omega) h0, ?_, ?_, ?_, ?_, ?_⟩
    · simp [countForwards]
    · simp
    · simp [forwardsAfterStop, countForwards]
    · exact ⟨[Event.beforeForwardEv 0 (Gpt.before_forward cfg b l 0),
              Event.forwardEv 0, Event.stopCheckEv 0 true], by simp⟩
    · simp
  | false =>
    cases h1 : g 1 with
    | true =>
      refine ⟨_, infer_eval_stop1 cfg g b l fuel inp out hf h0 h1, ?_, ?_, ?_, ?_, ?_⟩
      · simp [countForwards]
      · simp
      · simp [forwardsAfterStop, countForwards]
      · exact ⟨[Event.beforeForwardEv 0 (Gpt.before_forward cfg b l 0),
                Event.forwardEv 0, Event.stopCheckEv 0 false, Event.swapEv 0,
                Event.beforeForwardEv 1 (Gpt.before_forward cfg b l 1),
                Event.forwardEv 1, Event.stopCheckEv 1 true], by simp⟩
      · simp
    | false =>
      refine ⟨_, infer_eval_nostop cfg g b l fuel inp out hf h0 h1, ?_, ?_, ?_, ?_, ?_⟩
      · simp [countForwards]
      · simp
      · simp [forwardsAfterStop, countForwards]
      · exact ⟨[Event.beforeForwardEv 0 (Gpt.before_forward cfg b l 0),
                Event.forwardEv 0, Event.stopCheckEv 0 false, Event.swapEv 0,
                Event.beforeForwardEv 1 (Gpt.before_forward cfg b l 1),
                Event.forwardEv 1, Event.stopCheckEv 1 false, Event.swapEv 1], by simp⟩
      · simp

/-- Stop oracle of the C1 scenario: the generator emits a token at the
checks of steps 0 and 1 and signals stop from the third check on. -/
def stub_stop_after_two : Nat → Bool := fun k => decide (2 ≤ k)

/-- Stop oracle that never signals stop. -/
def stub_never_stop : Nat → Bool := fun _ => false

/-- Example configuration: max batch 1, max_step 8, hidden 768, beam
width 1, one transformer layer. -/
def cfg1 : GptConfig := ⟨1, 8, 768, 1, 1⟩

/-- The input-token Variable as wired in the Gpt constructor. -/
def inp_tokens0 : Variable := ⟨"inp_tokens", DataType.kInt32, ⟨0⟩⟩

/-- The output-token Variable as wired in the Gpt constructor. -/
def out_tokens0 : Variable := ⟨"out_tokens", DataType.kInt32, ⟨1⟩⟩

/-- C1: with batch 1, prompt length 3, max_step 8, beam 1 and a stub
generator that emits for two steps and then signals stop, the claim says
Infer() publishes output shape (1, 5). The code instead publishes (1, 4):
the unconditional break at steps == 1 (gpt.cc:157-159) exits the loop
before the third forward pass, so only one generated token past the
prompt is accounted for in the published shape. -/
theorem C1_infer_publishes_shape_1_4 :
    (Gpt.Infer cfg1 stub_stop_after_two 1 3 8 inp_tokens0 out_tokens0).map
        InferResult.output_shape = some [1, 4] ∧
      ([1, 4] : List Nat) ≠ [1, 5] := by
  exact ⟨rfl, by decide⟩

/-- C2: with a generator that never signals stop, batch 1, prompt length
3 and max_step 8, the claim says the loop halts when the step count
reaches max_step - prompt_length = 5 with shape (1, 8). The code instead
halts with steps = 1 and shape (1, 4): the break at steps == 1
(gpt.cc:157-159) is the only cap, and max_step is never consulted by the
loop. -/
theorem C2_infer_halts_at_step_one :
    ∃ r, Gpt.Infer cfg1 stub_never_stop 1 3 8 inp_tokens0 out_tokens0 = some r ∧
      r.steps = 1 ∧ r.output_shape = [1, 4] ∧ r.steps ≠ 8 - 3 := by
  exact ⟨_, rfl, rfl, rfl, by decide⟩

/-- C3: a single Gpt::Infer call runs the layer stack at most twice, and
the step counter never exceeds 1: whatever the stop oracle, the prompt
length and the configured max_step, the loop exits after the iteration
with steps = 1 (gpt.cc:157-159). -/
theorem C3_at_most_two_forward_passes (cfg : GptConfig) (g : Nat → Bool)
    (b l fuel : Nat) (inp out : Variable) (hf : 2 ≤ fuel) :
    ∃ r, Gpt.Infer cfg g b l fuel inp out = some r ∧
      countForwards r.trace ≤ 2 ∧ r.steps ≤ 1 := by
  obtain ⟨r, hr, hc, hs, -, -, -⟩ := infer_characterization cfg g b l fuel inp out hf
  exact ⟨r, hr, hc, hs⟩

/-- Witness for C3 at a concrete input. -/
theorem C3_witness :
    2 ≤ 2 ∧
      ∃ r, Gpt.Infer cfg1 stub_never_stop 1 3 2 inp_tokens0 out_tokens0 = some r ∧
        countForwards r.trace ≤ 2 ∧ r.steps ≤ 1 :=
  ⟨by decide,
   C3_at_most_two_forward_passes cfg1 stub_never_stop 1 3 2 inp_tokens0
     out_tokens0 (by decide)⟩

/-- C4 counterexample: the claim's bound of max_step - L decode
transitions fails at the in-range edge L = max_step. With batch 1 and
prompt length 8, both within the declared input max shape
{max_batch_size, max_step} = {1, 8} of cfg1, and a generator that never
signals stop, Infer takes one decode transition, exceeding the claimed
bound max_step - L = 0: the loop itself never reads max_step. -/
theorem C4_counterexample :
    ∃ r, Gpt.Infer cfg1 stub_never_stop 1 8 2 inp_tokens0 out_tokens0 = some r ∧
      1 ≤ cfg1.max_batch_size ∧ (8 : Nat) ≤ cfg1.max_step ∧
      ¬ r.steps ≤ cfg1.max_step - 8 := by
  exact ⟨_, rfl, by decide, by decide, by decide⟩

/-- C4 (amended): for every batch size B and prompt length L within the
declared maxima, and every stop oracle, Infer() terminates, taking at
most max(max_step - L, 1) decode transitions: the bound max_step - L of
the original claim holds whenever L < max_step, and at L = max_step one
decode transition can still occur. -/
theorem C4_amended_terminates_within_bound (cfg : GptConfig) (g : Nat → Bool)
    (B L max_step fuel : Nat) (inp out : Variable) (hf : 2 ≤ fuel) :
    ∃ r, Gpt.Infer cfg g B L fuel inp out = some r ∧
      r.steps ≤ max (max_step - L) 1 := by
  obtain ⟨r, hr, -, hs, -, -, -⟩ := infer_characterization cfg g B L fuel inp out hf
  exact ⟨r, hr, le_trans hs (le_max_right _ _)⟩

/-- Witness for the amended C4 at a concrete input. -/
theorem C4_amended_witness :
    2 ≤ 2 ∧
      ∃ r, Gpt.Infer cfg1 stub_never_stop 1 3 2 inp_tokens0 out_tokens0 = some r ∧
        r.steps ≤ max (8 - 3) 1 :=
  ⟨by decide,
   C4_amended_terminates_within_bound cfg1 stub_never_stop 1 3 8 2 inp_tokens0
     out_tokens0 (by decide)⟩

/-- C5: once the generator's stop check returns true, no further
layer-stack forward pass occurs in that Infer() call, and the loop indeed
terminates (reaches the Stopped state): the loop breaks at the first
positive is_stop() check (gpt.cc:150-152). -/
theorem C5_no_forward_after_stop (cfg : GptConfig) (g : Nat → Bool)
    (b l fuel : Nat) (inp out : Variable) (hf : 2 ≤ fuel) :
    ∃ r, Gpt.Infer cfg g b l fuel inp out = some r ∧
      forwardsAfterStop r.trace = 0 := by
  obtain ⟨r, hr, -, -, ha, -, -⟩ := infer_characterization cfg g b l fuel inp out hf
  exact ⟨r, hr, ha⟩

/-- Witness for C5 at a concrete input. -/
theorem C5_witness :
    2 ≤ 2 ∧
      ∃ r, Gpt.Infer cfg1 stub_stop_after_two 1 3 2 inp_tokens0 out_tokens0 = some r ∧
        forwardsAfterStop r.trace = 0 :=
  ⟨by decide,
   C5_no_forward_after_stop cfg1 stub_stop_after_two 1 3 2 inp_tokens0
     out_tokens0 (by decide)⟩

/-- C6 counterexample: on the decode transition after the non-stopping
prefill step, the before_forward sweep recorded in the Infer trace does
not give every layer the parameters (batch*beam, 1, prompt_length+step):
at batch 1, prompt length 3, step 1 the embedding layer receives third
argument 3 (= prompt_length + step - 1), not 4, and the norm and linear
layers receive no third argument at all. -/
theorem C6_counterexample :
    ∃ r, Gpt.Infer cfg1 stub_never_stop 1 3 2 inp_tokens0 out_tokens0 = some r ∧
      Event.beforeForwardEv 1 (Gpt.before_forward cfg1 1 3 1) ∈ r.trace ∧
      ¬ ∀ c ∈ Gpt.before_forward cfg1 1 3 1,
          c.arg1 = 1 * cfg1.beam_size ∧ c.arg2 = 1 ∧ c.arg3 = some (3 + 1) := by
  exact ⟨_, rfl, by decide, by decide⟩

/-- C6 (amended): on the decode transition after a non-stopping step, the
loop swaps the token buffers, increments the step counter, and calls
before_forward on every layer before the next forward pass; the
transformer layers receive (batch*beam, 1, prompt_length+step), while
the embedding and generator layers receive offset prompt_length+step-1
(the generator with batch, not batch*beam) and the norm and projection
layers receive only (batch*beam, 1). -/
theorem C6_amended_decode_transition (cfg : GptConfig) (g : Nat → Bool)
    (b l fuel : Nat) (inp out : Variable) (hf : 2 ≤ fuel) (h0 : g 0 = false) :
    ∃ r pre post, Gpt.Infer cfg g b l fuel inp out = some r ∧
      r.trace = pre ++ [Event.swapEv 0,
          Event.beforeForwardEv 1 (Gpt.before_forward cfg b l 1),
          Event.forwardEv 1] ++ post ∧
      Gpt.before_forward cfg b l 1 =
        [⟨LayerId.launch_gpt_emb, b * cfg.beam_size, 1, some l⟩]
        ++ (List.range cfg.n_enc_layer).map
            (fun idx => ⟨LayerId.gpt_layer idx, b * cfg.beam_size, 1, some (l + 1)⟩)
        ++ [⟨LayerId.lyr_norm, b * cfg.beam_size, 1, none⟩,
            ⟨LayerId.linear, b * cfg.beam_size, 1, none⟩,
            ⟨LayerId.generator, b, 1, some l⟩] := by
  cases h1 : g 1 with
  | true =>
    refine ⟨_, [Event.beforeForwardEv 0 (Gpt.before_forward cfg b l 0),
                Event.forwardEv 0, Event.stopCheckEv 0 false],
            [Event.stopCheckEv 1 true, Event.syncEv, Event.publishEv 0 [b, l + 1]],
            infer_eval_stop1 cfg g b l fuel inp out hf h0 h1, by simp, ?_⟩
    simp [Gpt.before_forward]
  | false =>
    refine ⟨_, [Event.beforeForwardEv 0 (Gpt.before_forward cfg b l 0),
                Event.forwardEv 0, Event.stopCheckEv 0 false],
            [Event.stopCheckEv 1 false, Event.swapEv 1, Event.syncEv,
             Event.publishEv 0 [b, l + 1]],
            infer_eval_nostop cfg g b l fuel inp out hf h0 h1, by simp, ?_⟩
    simp [Gpt.before_forward]

/-- Witness for the amended C6 at a concrete input. -/
theorem C6_amended_witness :
    2 ≤ 2 ∧ stub_never_stop 0 = false ∧
      ∃ r pre post,
        Gpt.Infer cfg1 stub_never_stop 1 3 2 inp_tokens0 out_tokens0 = some r ∧
        r.trace = pre ++ [Event.swapEv 0,
            Event.beforeForwardEv 1 (Gpt.before_forward cfg1 1 3 1),
            Event.forwardEv 1] ++ post ∧
        Gpt.before_forward cfg1 1 3 1 =
          [⟨LayerId.launch_gpt_emb, 1 * cfg1.beam_size, 1, some 3⟩]
          ++ (List.range cfg1.n_enc_layer).map
              (fun idx => ⟨LayerId.gpt_layer idx, 1 * cfg1.beam_size, 1, some (3 + 1)⟩)
          ++ [⟨LayerId.lyr_norm, 1 * cfg1.beam_size, 1, none⟩,
              ⟨LayerId.linear, 1 * cfg1.beam_size, 1, none⟩,
              ⟨LayerId.generator, 1, 1, some 3⟩] :=
  ⟨by decide, by decide,
   C6_amended_decode_transition cfg1 stub_never_stop 1 3 2 inp_tokens0
     out_tokens0 (by decide) (by decide)⟩

/-- C7: whenever the decode loop stops, Infer() first issues the Context
synchronize and only then publishes the output shape for slot 0 as
(batch, prompt_length + steps_taken): the trace always ends with the
synchronize event immediately followed by the publish event carrying
exactly that shape, which also equals the published output_shape. -/
theorem C7_sync_then_publish (cfg : GptConfig) (g : Nat → Bool)
    (b l fuel : Nat) (inp out : Variable) (hf : 2 ≤ fuel) :
    ∃ r pre, Gpt.Infer cfg g b l fuel inp out = some r ∧
      r.trace = pre ++ [Event.syncEv, Event.publishEv 0 [b, l + r.steps]] ∧
      r.output_shape = [b, l + r.steps] := by
  obtain ⟨r, hr, -, -, -, ⟨pre, hp⟩, ho⟩ :=
    infer_characterization cfg g b l fuel inp out hf
  exact ⟨r, pre, hr, hp, ho⟩

/-- Witness for C7 at a concrete input. -/
theorem C7_witness :
    2 ≤ 2 ∧
      ∃ r pre,
        Gpt.Infer cfg1 stub_stop_after_two 1 3 2 inp_tokens0 out_tokens0 = some r ∧
        r.trace = pre ++ [Event.syncEv, Event.publishEv 0 [1, 3 + r.steps]] ∧
        r.output_shape = [1, 3 + r.steps] :=
  ⟨by decide,
   C7_sync_then_publish cfg1 stub_stop_after_two 1 3 2 inp_tokens0 out_tokens0
     (by decide)⟩

/-- C8: every slot index other than 0 makes all seven accessors fail with
an invalid-index error, and slot 0 makes each of them succeed. -/
theorem C8_slot_zero_only (cfg : GptConfig) (fp16_mode : Bool) (i : Int)
    (p q op : Nat) (h : i ≠ 0) :
    exceptOk (Gpt.set_input_ptr i p) = false ∧
    exceptOk (Gpt.set_output_ptr i q) = false ∧
    exceptOk (Gpt.get_output_ptr op i) = false ∧
    exceptOk (Gpt.get_input_max_shape cfg i) = false ∧
    exceptOk (Gpt.get_output_max_shape cfg i) = false ∧
    exceptOk (Gpt.get_input_dtype i) = false ∧
    exceptOk (Gpt.get_output_dtype fp16_mode i) = false ∧
    exceptOk (Gpt.set_input_ptr 0 p) = true ∧
    exceptOk (Gpt.set_output_ptr 0 q) = true ∧
    exceptOk (Gpt.get_output_ptr op 0) = true ∧
    exceptOk (Gpt.get_input_max_shape cfg 0) = true ∧
    exceptOk (Gpt.get_output_max_shape cfg 0) = true ∧
    exceptOk (Gpt.get_input_dtype 0) = true ∧
    exceptOk (Gpt.get_output_dtype fp16_mode 0) = true := by
  simp [Gpt.set_input_ptr, Gpt.set_output_ptr, Gpt.get_output_ptr,
        Gpt.get_input_max_shape, Gpt.get_output_max_shape,
        Gpt.get_input_dtype, Gpt.get_output_dtype, exceptOk, h]

/-- Witness for C8 at slot index 1. -/
theorem C8_witness :
    (1 : Int) ≠ 0 ∧
      (exceptOk (Gpt.set_input_ptr 1 7) = false ∧
       exceptOk (Gpt.set_output_ptr 1 7) = false ∧
       exceptOk (Gpt.get_output_ptr 7 1) = false ∧
       exceptOk (Gpt.get_input_max_shape cfg1 1) = false ∧
       exceptOk (Gpt.get_output_max_shape cfg1 1) = false ∧
       exceptOk (Gpt.get_input_dtype 1) = false ∧
       exceptOk (Gpt.get_output_dtype false 1) = false ∧
       exceptOk (Gpt.set_input_ptr 0 7) = true ∧
       exceptOk (Gpt.set_output_ptr 0 7) = true ∧
       exceptOk (Gpt.get_output_ptr 7 0) = true ∧
       exceptOk (Gpt.get_input_max_shape cfg1 0) = true ∧
       exceptOk (Gpt.get_output_max_shape cfg1 0) = true ∧
       exceptOk (Gpt.get_input_dtype 0) = true ∧
       exceptOk (Gpt.get_output_dtype false 0) = true) :=
  ⟨by decide, C8_slot_zero_only cfg1 false 1 7 7 7 (by decide)⟩

/-- C9: when the Context is not yet built, StridedBatchGemmOp::forward
and ::backward return immediately: the operator state is unchanged and no
gemm kernel is launched (and since Variable buffers are written only by
launched kernels, all buffers are left unchanged as well). -/
theorem C9_build_phase_is_noop (op : StridedBatchGemmOp) :
    StridedBatchGemmOp.forward false op = (op, []) ∧
    StridedBatchGemmOp.backward false op = (op, []) :=
  ⟨rfl, rfl⟩

/-- C10: swapping two Variables twice restores the buffer assignment of
both: swap_tensor is an involution on the pair. -/
theorem C10_swap_twice_identity (a b : Variable) :
    Variable.swap_tensor (Variable.swap_tensor a b).1
      (Variable.swap_tensor a b).2 = (a, b) :=
  rfl

end lightseq
